import Mathlib

/-!
Verification development for the inasafe-realtime shake-event pipeline
(`shake_event.py`).  The Python source is shallowly embedded: machine floats
that the code only ever parses, compares and copies are modelled as rationals
(`ℚ`), Python exceptions as `Except`, and the QGIS/GDAL collaborators as
explicit oracle parameters.  Every definition is translated from the source
file; definitions that instead follow the specification's wording (for
refinement comparisons) say so in their doc comment.
-/

/-- Python `int(float(v))` truncates toward zero.  `Rat` is normalised with a
positive denominator, so truncated division of numerator by denominator is
exactly that truncation. -/
def pyInt (q : ℚ) : Int :=
  q.num.tdiv q.den

/-- Python list indexing: a non-negative index must be below the length, a
negative index wraps once from the right, anything else raises `IndexError`
(modelled as `Except.error`). -/
def pyIndex (l : List String) (i : Int) : Except String String :=
  if 0 ≤ i ∧ i < l.length then
    match l.get? i.toNat with
    | some x => Except.ok x
    | none => Except.error "IndexError"
  else if -(l.length : Int) ≤ i ∧ i < 0 then
    match l.get? (i + l.length).toNat with
    | some x => Except.ok x
    | none => Except.error "IndexError"
  else Except.error "IndexError"

/-- Leading-match test used by `strContains`. -/
def charsLeadWith : List Char → List Char → Bool
  | [], _ => true
  | _ :: _, [] => false
  | a :: as, b :: bs => a == b && charsLeadWith as bs

/-- Occurrence test at any position, used by `strContains`. -/
def charsContain (needle : List Char) : List Char → Bool
  | [] => charsLeadWith needle []
  | b :: bs => charsLeadWith needle (b :: bs) || charsContain needle bs

/-- Python `needle in haystack` on strings: substring containment. -/
def strContains (haystack needle : String) : Bool :=
  charsContain needle.toList haystack.toList

/-!
Grid-document model for `ShakeEvent.parse_grid_xml` (shake_event.py lines
269-378).  The parser reads raw attribute and sample strings and converts
some of them with Python `float()`.  A raw string is abstracted by whether
`float()` accepts it: `Tok.num q` stands for a string parsing to the value
`q`, `Tok.str s` for a string `float()` rejects with `ValueError`.
-/

/-- Raw document token: a string, abstracted by its behaviour under Python
`float()`. -/
inductive Tok where
  | num (q : ℚ)
  | str (s : String)
deriving DecidableEq

/-- Model of Python `float(token)`: `ValueError` for a non-numeric string. -/
def Tok.toFloat : Tok → Except String ℚ
  | .num q => Except.ok q
  | .str _ => Except.error "ValueError"

/-- True when Python `float()` accepts the token. -/
def Tok.isNum : Tok → Bool
  | .num _ => true
  | .str _ => false

/-- Parsed parts of the `event_timestamp` attribute as produced by
`extract_datetime` (lines 245-267) plus the trailing timezone slice. -/
structure Timestamp where
  year : Int
  month : Int
  day : Int
  hour : Int
  minute : Int
  second : Int
  tz : String
deriving DecidableEq

/-- An `event_timestamp` attribute string, abstracted by whether the slicing
and `int()` conversions of `extract_datetime` succeed on it. -/
inductive TsTok where
  | good (t : Timestamp)
  | bad (s : String)
deriving DecidableEq

/-- Model of `extract_datetime`: malformed timestamps raise `ValueError`. -/
def TsTok.extract : TsTok → Except String Timestamp
  | .good t => Except.ok t
  | .bad _ => Except.error "ValueError"

/-- Attributes of the `<event>` element.  `none` models a missing attribute
(`KeyError` on access). -/
structure EventAttrs where
  magnitude : Option Tok
  lon : Option Tok
  lat : Option Tok
  event_description : Option String
  depth : Option Tok
  event_timestamp : Option TsTok
deriving DecidableEq

/-- Attributes of the `<grid_specification>` element. -/
structure SpecAttrs where
  lon_min : Option Tok
  lon_max : Option Tok
  lat_min : Option Tok
  lat_max : Option Tok
  nlat : Option Tok
  nlon : Option Tok
deriving DecidableEq

/-- One `<grid_field index=... name=.../>` declaration: the document's column
schema associating a field name with a 1-based column position. -/
structure GridField where
  index : Nat
  name : String
deriving DecidableEq

/-- A grid document as seen by `parse_grid_xml`: the `<event>` element, the
`<grid_specification>` element, the `<grid_field>` schema declarations and
the `<grid_data>` text, already split into lines and space-separated tokens
(an empty token list models an empty line, which the source skips with
`if not line: continue`).  `none` for an element models
`getElementsByTagName(...)[0]` raising `IndexError`. -/
structure GridDoc where
  event : Option EventAttrs
  grid_specification : Option SpecAttrs
  grid_fields : List GridField
  grid_data : Option (List (List Tok))
deriving DecidableEq

/-- The event state populated by a successful `parse_grid_xml`. -/
structure ShakeGrid where
  magnitude : ℚ
  longitude : ℚ
  latitude : ℚ
  location : String
  depth : ℚ
  ts : Timestamp
  timezone : String
  x_minimum : ℚ
  x_maximum : ℚ
  y_minimum : ℚ
  y_maximum : ℚ
  rows : ℚ
  columns : ℚ
  mmi_data : List (Tok × Tok × Tok)
deriving DecidableEq

/-- Indexing `container[0]` on a possibly-empty element list: `IndexError`
when the element is absent. -/
def getElem0 (o : Option α) : Except String α :=
  match o with
  | some a => Except.ok a
  | none => Except.error "IndexError"

/-- Access `element.attributes[name]`: `KeyError` when the attribute is absent. -/
def getAttr (o : Option α) : Except String α :=
  match o with
  | some a => Except.ok a
  | none => Except.error "KeyError"

/-- Reading `tokens[i]`: `IndexError` when the line is too short. -/
def tokenAt (tokens : List Tok) (i : Nat) : Except String Tok :=
  match tokens.get? i with
  | some t => Except.ok t
  | none => Except.error "IndexError"

/-- One sample line of `<grid_data>` (lines 367-372): the source reads the
tokens at the hard-coded positions `lon_column = 0`, `lat_column = 1` and
`mmi_column = 4` and keeps them as raw strings, without any numeric
conversion.  A missing token raises `IndexError`. -/
def parseLine (tokens : List Tok) : Except String (Tok × Tok × Tok) := do
  let lon ← tokenAt tokens 0
  let lat ← tokenAt tokens 1
  let mmi ← tokenAt tokens 4
  return (lon, lat, mmi)

/-- The sample loop of `parse_grid_xml` (lines 363-372): empty lines are
skipped, every other line contributes one `(lon, lat, mmi)` triple. -/
def parseLines : List (List Tok) → Except String (List (Tok × Tok × Tok))
  | [] => Except.ok []
  | [] :: rest => parseLines rest
  | line :: rest => do
      let t ← parseLine line
      let ts ← parseLines rest
      return t :: ts

/-- Model of `ShakeEvent.parse_grid_xml` (lines 317-378).  The whole body runs inside
one `try` block whose handler re-raises every exception as
`GridXmlParseError`; the distinct error strings here are therefore all
facets of that one error.  Note that `grid_fields` — the declared column
schema — is never consulted. -/
def parse_grid_xml (doc : GridDoc) : Except String ShakeGrid := do
  let ev ← getElem0 doc.event
  let magnitude ← (← getAttr ev.magnitude).toFloat
  let longitude ← (← getAttr ev.lon).toFloat
  let latitude ← (← getAttr ev.lat).toFloat
  let location := (← getAttr ev.event_description).trim
  let depth ← (← getAttr ev.depth).toFloat
  let tsRaw ← getAttr ev.event_timestamp
  let ts ← tsRaw.extract
  let sp ← getElem0 doc.grid_specification
  let x_minimum ← (← getAttr sp.lon_min).toFloat
  let x_maximum ← (← getAttr sp.lon_max).toFloat
  let y_minimum ← (← getAttr sp.lat_min).toFloat
  let y_maximum ← (← getAttr sp.lat_max).toFloat
  let rows ← (← getAttr sp.nlat).toFloat
  let columns ← (← getAttr sp.nlon).toFloat
  let dataLines ← getElem0 doc.grid_data
  let mmi_data ← parseLines dataLines
  return { magnitude := magnitude, longitude := longitude, latitude := latitude,
           location := location, depth := depth, ts := ts, timezone := ts.tz,
           x_minimum := x_minimum, x_maximum := x_maximum,
           y_minimum := y_minimum, y_maximum := y_maximum,
           rows := rows, columns := columns, mmi_data := mmi_data }

/-- An attribute that is present and accepted by `float()`. -/
def attrNum : Option Tok → Bool
  | some (.num _) => true
  | _ => false

/-- A timestamp attribute that is present and well formed. -/
def tsOk : Option TsTok → Bool
  | some (.good _) => true
  | _ => false

/-- A sample line the loop accepts: empty (skipped) or long enough for the
three hard-coded column positions. -/
def lineOk (l : List Tok) : Bool :=
  l.isEmpty || decide (5 ≤ l.length)

/-- Requirements on the `<event>` element for the parse to succeed. -/
def eventOk : Option EventAttrs → Bool
  | none => false
  | some ev =>
      attrNum ev.magnitude && attrNum ev.lon && attrNum ev.lat &&
      ev.event_description.isSome && attrNum ev.depth && tsOk ev.event_timestamp

/-- Requirements on the `<grid_specification>` element. -/
def specOk : Option SpecAttrs → Bool
  | none => false
  | some sp =>
      attrNum sp.lon_min && attrNum sp.lon_max && attrNum sp.lat_min &&
      attrNum sp.lat_max && attrNum sp.nlat && attrNum sp.nlon

/-- Requirements on the `<grid_data>` element.  Sample tokens themselves are
not checked for numericness anywhere. -/
def dataOk : Option (List (List Tok)) → Bool
  | none => false
  | some ls => ls.all lineOk

/-- Exact success condition of `parse_grid_xml`. -/
def gridDocOk (doc : GridDoc) : Bool :=
  eventOk doc.event && specOk doc.grid_specification && dataOk doc.grid_data

/-- True when some sample line carries a token Python `float()` would
reject.  The original claim says such documents must fail to parse. -/
def hasNonNumericSampleToken (doc : GridDoc) : Bool :=
  match doc.grid_data with
  | some ls => ls.any (fun l => l.any (fun t => !t.isNum))
  | none => false

/-- The positional sample extraction the parser actually performs: columns
0, 1 and 4 of every non-empty line. -/
def fixedColumns (ls : List (List Tok)) : List (Tok × Tok × Tok) :=
  ls.filterMap (fun l =>
    match l.get? 0, l.get? 1, l.get? 4 with
    | some a, some b, some c => some (a, b, c)
    | _, _, _ => none)

/-- Follows the specification's words (§4.1): locate the longitude, latitude
and intensity columns BY NAME through the declared `grid_field` schema,
whose `index` attribute is the 1-based column position.  This definition is
the refinement comparison target for C2, not a translation of the source. -/
def specSchemaColumn (fields : List GridField) (nm : String) : Option Nat :=
  (fields.find? (fun f => f.name == nm)).map (fun f => f.index - 1)

/-- Follows the specification's words (§4.1): the samples of the columns
whose declared names are the longitude, latitude and intensity fields. -/
def specSchemaExtract (doc : GridDoc) : Option (List (Tok × Tok × Tok)) :=
  match specSchemaColumn doc.grid_fields "LON", specSchemaColumn doc.grid_fields "LAT",
        specSchemaColumn doc.grid_fields "MMI", doc.grid_data with
  | some li, some la, some mi, some ls =>
      some (ls.filterMap (fun l =>
        match l.get? li, l.get? la, l.get? mi with
        | some a, some b, some c => some (a, b, c)
        | _, _, _ => none))
  | _, _, _, _ => none

/-!
Romanization (`ShakeEvent.romanize`, lines 811-832).
-/

/-- The 13-element numeral table of `romanize`. -/
def romanList : List String :=
  ["0", "I", "II", "III", "IV", "V", "VI", "VII", "VIII",
   "IX", "X", "XI", "XII"]

/-- Model of `ShakeEvent.romanize` (lines 811-832).  `None` input returns the empty
string.  The body indexes `roman_list[int(float(mmi_value))]` inside a
handler that catches only `ValueError` (returning `None`); for a finite
rational the `int(float(...))` conversion cannot raise `ValueError` (that
needs NaN or infinity), so the only reachable failure is the `IndexError`
of the table lookup, which is NOT caught and escapes as `Except.error`. -/
def romanize (mmi_value : Option ℚ) : Except String (Option String) :=
  match mmi_value with
  | none => Except.ok (some "")
  | some v =>
      match pyIndex romanList (pyInt v) with
      | Except.ok roman => Except.ok (some roman)
      | Except.error e => Except.error e

/-!
Spatial city search (`ShakeEvent.local_city_features`, lines 1143-1287).
-/

/-- A `QgsRectangle` value. -/
structure Rect where
  xMin : ℚ
  yMin : ℚ
  xMax : ℚ
  yMax : ℚ
deriving DecidableEq

/-- Model of `QgsRectangle.scale(factor)`: multiply width and height by the factor,
keeping the centre point fixed.  In Python this MUTATES the rectangle in
place; call sites model that by rebinding. -/
def Rect.scale (r : Rect) (f : ℚ) : Rect :=
  let centerX := (r.xMin + r.xMax) / 2
  let centerY := (r.yMin + r.yMax) / 2
  let halfWidth := (r.xMax - r.xMin) * f / 2
  let halfHeight := (r.yMax - r.yMin) * f / 2
  ⟨centerX - halfWidth, centerY - halfHeight, centerX + halfWidth, centerY + halfHeight⟩

/-- Exact intersection of a point feature with the request's filter
rectangle (`QgsFeatureRequest.ExactIntersect`), boundary inclusive. -/
def Rect.containsPoint (r : Rect) (x y : ℚ) : Bool :=
  decide (r.xMin ≤ x) && decide (x ≤ r.xMax) &&
  decide (r.yMin ≤ y) && decide (y ≤ r.yMax)

/-- One feature of the geonames layer as `local_city_features` reads it:
`feature.isValid()`, the `fcode` and `asciiname` and `population` fields,
the point geometry and the feature id. -/
structure RawCity where
  valid : Bool
  fcode : String
  population : Int
  x : ℚ
  y : ℚ
  name : String
  id : Nat
deriving DecidableEq

/-- Result of the raster `identify` lookup at a point, when the result list
is non-empty: either the band-1 value string contains `no data`, or it
converts to a number. -/
inductive RasterValue where
  | noData
  | val (q : ℚ)
deriving DecidableEq

/-- The attribute row written for each kept city (lines 1275-1285). -/
structure CityFeature where
  id : Nat
  name : String
  population : Int
  mmi : ℚ
  dist_to : ℚ
  dir_to : ℚ
  dir_from : ℚ
  roman : String
  colour : String
deriving DecidableEq

/-- One recorded search box (line 1188):
`{'city_count': count, 'geometry': rectangle}`. -/
structure SearchBox where
  city_count : Nat
  geometry : Rect
deriving DecidableEq

/-- External QGIS collaborators used per city: `QgsPoint.azimuth`
(trigonometric, abstracted as an oracle) and the Mercalli colour table
`mmi_colour` from the styling module (external collaborator). -/
structure CityOracles where
  azimuth : ℚ × ℚ → ℚ × ℚ → ℚ
  mmi_colour : ℚ → String

/-- State left behind by the expanding-search loop (lines 1170-1204):
the final value of the one mutable `rectangle` object, the per-iteration
counts, the filter rectangle of the last `QgsFeatureRequest` built (a copy
taken when the request was created), and `found_flag`. -/
structure SearchResult where
  finalRect : Rect
  counts : List Nat
  requestRect : Rect
  found : Bool
deriving DecidableEq

/-- Counting the features that intersect the filter rectangle
(lines 1184-1186). -/
def cityCountIn (cities : List RawCity) (r : Rect) : Nat :=
  (cities.filter (fun c => r.containsPoint c.x c.y)).length

/-- The `for _ in range(attempts_limit)` loop (lines 1176-1195) with
`minimum_city_count = 1`: count the cities in the rectangle, record the
count, and on failure scale the rectangle by the zoom factor and retry. -/
def searchIterate (cities : List RawCity) (zoomFactor : ℚ) : Nat → Rect → SearchResult
  | 0, r => ⟨r, [], r, false⟩
  | n + 1, r =>
      let count := cityCountIn cities r
      if 1 ≤ count then ⟨r, [count], r, true⟩
      else
        match n with
        | 0 => ⟨r.scale zoomFactor, [count], r, false⟩
        | m + 1 =>
            let res := searchIterate cities zoomFactor (m + 1) (r.scale zoomFactor)
            ⟨res.finalRect, count :: res.counts, res.requestRect, res.found⟩

/-- Constant `attempts_limit = 5` (line 1170). -/
def attempts_limit : Nat := 5

/-- The whole expanding search, starting from the raster extent. -/
def searchCities (cities : List RawCity) (rect0 : Rect) (zoomFactor : ℚ) : SearchResult :=
  searchIterate cities zoomFactor attempts_limit rect0

/-- Per-feature body of the post-search loop (lines 1223-1286): filters on
validity, the `PPL` feature-code substring and `population >= 1`; looks the
intensity up on the raster (`none` models an empty `identify` result list —
position not found on raster — and skips the city); a band value whose
string contains `no data` sets `mmi = 0` and KEEPS the city; `romanize`
returning `None` skips the city, and an uncaught `romanize` exception
propagates. -/
def buildCity (orc : CityOracles) (raster : ℚ → ℚ → Option RasterValue)
    (epicenter : ℚ × ℚ) (f : RawCity) : Except String (Option CityFeature) :=
  if !f.valid then Except.ok none
  else if !(strContains f.fcode "PPL") then Except.ok none
  else if f.population < 1 then Except.ok none
  else
    let point : ℚ × ℚ := (f.x, f.y)
    let distance := (point.1 - epicenter.1) * (point.1 - epicenter.1) +
                    (point.2 - epicenter.2) * (point.2 - epicenter.2)
    let direction_to := orc.azimuth point epicenter
    let direction_from := orc.azimuth epicenter point
    match raster f.x f.y with
    | none => Except.ok none
    | some rv =>
        let mmi : ℚ :=
          match rv with
          | .noData => 0
          | .val q => q
        match romanize (some mmi) with
        | Except.error e => Except.error e
        | Except.ok none => Except.ok none
        | Except.ok (some roman) =>
            Except.ok (some
              { id := f.id, name := f.name, population := f.population,
                mmi := mmi, dist_to := distance, dir_to := direction_to,
                dir_from := direction_from, roman := roman,
                colour := orc.mmi_colour mmi })

/-- The post-search loop over the selected features, in order. -/
def buildCities (orc : CityOracles) (raster : ℚ → ℚ → Option RasterValue)
    (epicenter : ℚ × ℚ) : List RawCity → Except String (List CityFeature)
  | [] => Except.ok []
  | f :: rest => do
      let c? ← buildCity orc raster epicenter f
      let cs ← buildCities orc raster epicenter rest
      match c? with
      | some c => Except.ok (c :: cs)
      | none => Except.ok cs

/-- Model of `ShakeEvent.local_city_features` (lines 1143-1287), from the expanding
search onward.  Python stores each iteration's record as
`{'city_count': count, 'geometry': rectangle}` where `geometry` is a
REFERENCE to the single mutable `QgsRectangle` that `scale` then updates in
place (lines 1188-1192), so after the loop every record's geometry shows the
final value of that rectangle; the model reflects that by pairing every
count with `finalRect`.  The post-loop feature pass re-runs the last
`QgsFeatureRequest`, whose filter rectangle was copied when the request was
built (line 1179), before any later scaling. -/
def local_city_features (orc : CityOracles) (raster : ℚ → ℚ → Option RasterValue)
    (epicenter : ℚ × ℚ) (cities : List RawCity) (rect0 : Rect) (zoomFactor : ℚ) :
    Except String (List CityFeature × List SearchBox × Rect) := do
  let res := searchCities cities rect0 zoomFactor
  let search_boxes := res.counts.map (fun c => SearchBox.mk c res.finalRect)
  let extent_with_cities := res.finalRect
  let selected := cities.filter (fun c => res.requestRect.containsPoint c.x c.y)
  let feats ← buildCities orc raster epicenter selected
  return (feats, search_boxes, extent_with_cities)

/-!
Ranking (`ShakeEvent.sorted_impacted_cities`, lines 1379-1484).
-/

/-- One row of the city dict built at lines 1452-1460; `mmi-int` is not a
stored field but `int(mmi)` recomputed in the key. -/
structure CityRow where
  id : Int
  name : String
  mmi : ℚ
  population : Int
  roman : String
  dist_to : ℚ
  dir_to : ℚ
  dir_from : ℚ
deriving DecidableEq

/-- Lexicographic step of a Python tuple comparison: strictly smaller first
component decides, strictly greater rejects, ties fall through. -/
def keyLe {α : Type} {κ : Type} [LinearOrder κ] (f : α → κ)
    (rest : α → α → Bool) (a b : α) : Bool :=
  if f a < f b then true
  else if f b < f a then false
  else rest a b

/-- The sort key of lines 1464-1475:
`(-mmi_int, -population, name, mmi, roman, dist_to, dir_to, dir_from, id)`.
Note the fourth component is the PLAIN (ascending) exact mmi — the source
does not negate `d['mmi']`.  Python compares `str` bytewise; modelled by the
lexicographic order on the character lists, which coincides for ASCII. -/
def cityLe : CityRow → CityRow → Bool :=
  keyLe (fun c => -(pyInt c.mmi))
    (keyLe (fun c => -c.population)
      (keyLe (fun c => c.name.data)
        (keyLe (fun c => c.mmi)
          (keyLe (fun c => c.roman.data)
            (keyLe (fun c => c.dist_to)
              (keyLe (fun c => c.dir_to)
                (keyLe (fun c => c.dir_from)
                  (fun a b => decide (a.id ≤ b.id)))))))))

/-- Relation form of `cityLe`, for the sort lemmas. -/
def cityR (a b : CityRow) : Prop := cityLe a b = true

instance : DecidableRel cityR := fun a b => by
  unfold cityR; infer_instance

/-- Python's `sorted` is a stable ascending sort by the key; modelled by
insertion sort, which produces the same (unique) stable result for this
total preorder. -/
def citySortOrder (cities : List CityRow) : List CityRow :=
  List.insertionSort cityR cities

/-- Model of `ShakeEvent.sorted_impacted_cities` (lines 1464-1484): sort, take the
head as the most affected city, and slice — the slice guard at line 1482
compares the length against the LITERAL 5, not `row_count`. -/
def sorted_impacted_cities (row_count : Nat) (cities : List CityRow) :
    List CityRow × Option CityRow :=
  let sorted_cities := citySortOrder cities
  let most_affected_city := sorted_cities.head?
  let rows := if 5 < sorted_cities.length then sorted_cities.take row_count
              else sorted_cities
  (rows, most_affected_city)

/-- Follows the specification's key sequence word for word (§4.5): its
fourth key is DESCENDING exact intensity, hence the negation.  Refinement
comparison target for C3, not a translation of the source. -/
def specCityLe : CityRow → CityRow → Bool :=
  keyLe (fun c => -(pyInt c.mmi))
    (keyLe (fun c => -c.population)
      (keyLe (fun c => c.name.data)
        (keyLe (fun c => -c.mmi)
          (keyLe (fun c => c.roman.data)
            (keyLe (fun c => c.dist_to)
              (keyLe (fun c => c.dir_to)
                (keyLe (fun c => c.dir_from)
                  (fun a b => decide (a.id ≤ b.id)))))))))

/-!
Raster co-registration (`ShakeEvent.clip_layers`, lines 1731-1804).
-/

/-- A raster layer as `clip_layers` observes it: its extent reprojected to
EPSG:4326 (`extent_to_geoarray`) and its native resolution expressed in
that reference (`get_wgs84_resolution`). -/
structure GeoLayer where
  geoExtent : Rect
  geoCellSize : ℚ
deriving DecidableEq

/-- The arguments handed to one `clip_layer` call.  `clip_layer` is the
external resampler; per the source comment (lines 1757-1762) it null-pads
any missing data, so no coverage precondition exists here. -/
structure ClipCall where
  extent : Rect
  cell_size : ℚ
  resolutionKeyword : Option ℚ
deriving DecidableEq

/-- Model of `ShakeEvent.clip_layers` (lines 1753-1804): choose the smaller WGS84
cell size, clip BOTH layers to the hazard layer's geographic extent, and
record the exposure layer's native resolution as an extra keyword when the
chosen cell size differs from it (`numpy.allclose` modelled as exact
rational equality). -/
def clip_layers (hazard_layer exposure_layer : GeoLayer) : ClipCall × ClipCall :=
  let hazard_geo_extent := hazard_layer.geoExtent
  let hazard_geo_cell_size := hazard_layer.geoCellSize
  let exposure_geo_cell_size := exposure_layer.geoCellSize
  let cell_size :=
    if hazard_geo_cell_size < exposure_geo_cell_size then hazard_geo_cell_size
    else exposure_geo_cell_size
  let extra_exposure_keywords :=
    if cell_size ≠ exposure_geo_cell_size then some exposure_geo_cell_size else none
  (⟨hazard_geo_extent, cell_size, none⟩,
   ⟨hazard_geo_extent, cell_size, extra_exposure_keywords⟩)

/-!
Impact keyword extraction (`ShakeEvent.calculate_impacts`, lines 1691-1701).
-/

/-- The keyword dictionary returned by the external fatality function, with
each expected key possibly absent. -/
structure ImpactKeywords where
  fatalites_per_mmi : Option (List (Int × ℚ))
  exposed_per_mmi : Option (List (Int × ℚ))
  displaced_per_mmi : Option (List (Int × ℚ))
  total_fatalities : Option ℚ
deriving DecidableEq

/-- Lines 1692-1701: read the four expected keys inside a `try` whose bare
`except` logs and RE-RAISES.  The `self.*` assignments happen only after
the `try` block, so a missing key yields the re-raised `KeyError` and no
field receives a default. -/
def extract_impact_keywords (k : ImpactKeywords) :
    Except String (List (Int × ℚ) × List (Int × ℚ) × List (Int × ℚ) × ℚ) := do
  let fatalities ← getAttr k.fatalites_per_mmi
  let affected ← getAttr k.exposed_per_mmi
  let displaced ← getAttr k.displaced_per_mmi
  let total_fatalities ← getAttr k.total_fatalities
  return (fatalities, affected, displaced, total_fatalities)

/-!
Raster generation and its cache (`ShakeEvent.mmi_data_to_raster`,
lines 575-673, with the helpers it calls at lines 400-475).  The event's
extract directory is modelled as a map from file names to an abstract
content stamp; the contents freshly produced by one generation pass are the
fields of `Gen`.
-/

/-- The extract directory: file name to content stamp. -/
def FS : Type := String → Option Nat

/-- Writing one file. -/
def FS.insert (fs : FS) (p : String) (v : Nat) : FS :=
  fun q => if q = p then some v else fs q

/-- Content stamps produced by one generation pass: the csv/csvt writes,
the vrt write, the `gdal_grid` shell call's tif output and the copied
keywords/qml fixtures. -/
structure Gen where
  csv : Nat
  csvt : Nat
  vrt : Nat
  tif : Nat
  keywords : Nat
  qml : Nat

/-- Model of `mmi_data_to_delimited_file` (lines 400-438): short-circuit when
`mmi.csv` exists and force is off (note the `.csvt` is then NOT rewritten
either); otherwise write `mmi.csv` and `mmi.csvt`. -/
def mmi_data_to_delimited_file (gen : Gen) (fs : FS) (force_flag : Bool) : FS × String :=
  let path := "mmi.csv"
  if (fs path).isSome && !force_flag then (fs, path)
  else
    let fs1 := fs.insert path gen.csv
    let fs2 := fs1.insert "mmi.csvt" gen.csvt
    (fs2, path)

/-- Model of `mmi_data_to_vrt` (lines 440-475): short-circuit when `mmi.vrt` exists
and force is off; otherwise ensure the csv exists and write the vrt. -/
def mmi_data_to_vrt (gen : Gen) (fs : FS) (force_flag : Bool) : FS × String :=
  let vrt_path := "mmi.vrt"
  if (fs vrt_path).isSome && !force_flag then (fs, vrt_path)
  else
    let res := mmi_data_to_delimited_file gen fs force_flag
    (res.1.insert vrt_path gen.vrt, vrt_path)

/-- The per-algorithm tif artifact name, `mmi-%s.tif % algorithm`. -/
def tifName (alg : String) : String := "mmi-" ++ alg ++ ".tif"

/-- Model of `mmi_data_to_raster` (lines 575-673): default the algorithm to
`nearest` when `None` is passed, short-circuit when the per-algorithm tif
exists and force is off, otherwise regenerate the vrt chain, run the
`gdal_grid` shell command (whose output is the `gen.tif` stamp; for an
`invdist` algorithm the command embeds the fixed
`power=2.0:smoothing=1.0` parameters) and copy the keywords and qml
fixtures. -/
def mmi_data_to_raster (gen : Gen) (fs : FS) (force_flag : Bool)
    (algorithm : Option String) : FS × String :=
  let alg := algorithm.getD "nearest"
  let tif_path := tifName alg
  if (fs tif_path).isSome && !force_flag then (fs, tif_path)
  else
    let vres := mmi_data_to_vrt gen fs force_flag
    let the_algorithm :=
      if strContains alg "invdist" then "invdist:power=2.0:smoothing=1.0" else alg
    let command := "gdal_grid -a " ++ the_algorithm ++
      " -zfield mmi -of GTiff -ot Float16 -a_srs EPSG:4326 -l mmi mmi.vrt " ++ tif_path
    let _ := command
    let fs2 := vres.1.insert tif_path gen.tif
    let fs3 := fs2.insert ("mmi-" ++ alg ++ ".keywords") gen.keywords
    let fs4 := fs3.insert ("mmi-" ++ alg ++ ".qml") gen.qml
    (fs4, tif_path)

/-!
Concrete inputs used by the counterexamples and witnesses below.
-/

def cityHigh : CityRow := ⟨1, "Alpha", mkRat 24 5, 1000, "IV", 1, 0, 0⟩

def cityLow : CityRow := ⟨2, "Alpha", mkRat 21 5, 1000, "IV", 1, 0, 0⟩

def mkRow (i : Int) (pop : Int) : CityRow := ⟨i, "Town", 5, pop, "V", 1, 0, 0⟩

def rankFour : List CityRow := [mkRow 1 10, mkRow 2 20, mkRow 3 30, mkRow 4 40]

def goodEvent : EventAttrs :=
  { magnitude := some (.num 5), lon := some (.num 128), lat := some (.num 2),
    event_description := some "Halmahera, Indonesia", depth := some (.num 206),
    event_timestamp := some (.good ⟨2012, 8, 7, 1, 55, 12, "WIB"⟩) }

def goodSpec : SpecAttrs :=
  { lon_min := some (.num 126), lon_max := some (.num 130),
    lat_min := some (.num 0), lat_max := some (.num 4),
    nlat := some (.num 161), nlon := some (.num 161) }

def docNonNumericTok : GridDoc :=
  { event := some goodEvent, grid_specification := some goodSpec,
    grid_fields := [⟨1, "LON"⟩, ⟨2, "LAT"⟩, ⟨3, "PGA"⟩, ⟨4, "PGV"⟩, ⟨5, "MMI"⟩],
    grid_data := some [[.num 126, .num 4, .num 1, .num 2, .str "abc"]] }

def docShuffledSchema : GridDoc :=
  { event := some goodEvent, grid_specification := some goodSpec,
    grid_fields := [⟨1, "LON"⟩, ⟨2, "LAT"⟩, ⟨3, "MMI"⟩, ⟨4, "PGA"⟩, ⟨5, "PGV"⟩],
    grid_data := some [[.num 1, .num 2, .num 3, .num 4, .num 5]] }

def cOrc : CityOracles := ⟨fun _ _ => 0, fun _ => "#ffffff"⟩

def noDataRaster : ℚ → ℚ → Option RasterValue := fun _ _ => some RasterValue.noData

def cCity : RawCity := ⟨true, "PPLC", 1000, mkRat 1 2, mkRat 1 2, "Tondano", 57⟩

def cRect : Rect := ⟨0, 0, 1, 1⟩

def c6Rect : Rect := ⟨0, 0, 1, 1⟩

def c6Final : Rect :=
  ⟨mkRat (-2101) 2048, mkRat (-2101) 2048, mkRat 4149 2048, mkRat 4149 2048⟩

def kFull : ImpactKeywords :=
  ⟨some [(5, 10)], some [(5, 100)], some [(5, 20)], some 30⟩

def fsCached : FS := fun p => if p = tifName "nearest" then some 7 else none

/-!
Theorems.
-/

theorem parseLine_isOk (l : List Tok) : (parseLine l).isOk = decide (5 ≤ l.length) := by
  match l with
  | [] => rfl
  | [_] => rfl
  | [_, _] => rfl
  | [_, _, _] => rfl
  | [_, _, _, _] => rfl
  | _ :: _ :: _ :: _ :: _ :: rest =>
      simp [parseLine, tokenAt, Except.isOk, Except.toBool, bind, Except.bind, pure, Except.pure, Nat.le_add_left]

theorem parseLines_isOk (ls : List (List Tok)) : (parseLines ls).isOk = ls.all lineOk := by
  induction ls with
  | nil => rfl
  | cons line rest ih =>
      cases line with
      | nil => simpa [parseLines, lineOk] using ih
      | cons t ts =>
          have hl := parseLine_isOk (t :: ts)
          simp only [parseLines, List.all_cons]
          cases h : parseLine (t :: ts) with
          | error e =>
              rw [h] at hl
              simp only [Except.isOk, Except.toBool] at hl
              have h5 : ¬ (5 ≤ (t :: ts).length) := of_decide_eq_false hl.symm
              have h4 : lineOk (t :: ts) = false := by
                simp [lineOk] at h5 ⊢
                omega
              simp [bind, Except.bind, Except.isOk, Except.toBool, h4]
          | ok tr =>
              rw [h] at hl
              simp only [Except.isOk, Except.toBool] at hl
              have h5 : 5 ≤ (t :: ts).length := of_decide_eq_true hl.symm
              have h4 : lineOk (t :: ts) = true := by
                simp [lineOk] at h5 ⊢
                omega
              cases h2 : parseLines rest with
              | error e2 =>
                  rw [h2] at ih
                  simp only [Except.isOk, Except.toBool] at ih
                  simp [bind, Except.bind, Except.isOk, Except.toBool, h4, ← ih]
              | ok ms =>
                  rw [h2] at ih
                  simp only [Except.isOk, Except.toBool] at ih
                  simp [bind, Except.bind, Except.isOk, Except.toBool, pure,
                        Except.pure, h4, ← ih]

theorem parse_grid_xml_isOk (doc : GridDoc) :
    (parse_grid_xml doc).isOk = gridDocOk doc := by
  obtain ⟨ev?, sp?, fields, data?⟩ := doc
  rcases ev? with _ | ⟨mag, lon, lat, desc, dep, tsa⟩
  · rfl
  rcases mag with _ | (_ | _) <;> try rfl
  rcases lon with _ | (_ | _) <;> try rfl
  rcases lat with _ | (_ | _) <;> try rfl
  rcases desc with _ | _ <;> try rfl
  rcases dep with _ | (_ | _) <;> try rfl
  rcases tsa with _ | (_ | _) <;> try rfl
  rcases sp? with _ | ⟨l1, l2, l3, l4, nr, nc⟩
  · rfl
  rcases l1 with _ | (_ | _) <;> try rfl
  rcases l2 with _ | (_ | _) <;> try rfl
  rcases l3 with _ | (_ | _) <;> try rfl
  rcases l4 with _ | (_ | _) <;> try rfl
  rcases nr with _ | (_ | _) <;> try rfl
  rcases nc with _ | (_ | _) <;> try rfl
  rcases data? with _ | ls
  · rfl
  have hps := parseLines_isOk ls
  simp only [parse_grid_xml, getElem0, getAttr, Tok.toFloat, TsTok.extract,
             bind, Except.bind, pure, Except.pure, gridDocOk, eventOk, specOk,
             dataOk, attrNum, tsOk]
  cases h : parseLines ls with
  | error e =>
      rw [h] at hps
      simp only [Except.isOk, Except.toBool] at hps ⊢
      simp [← hps]
  | ok ms =>
      rw [h] at hps
      simp only [Except.isOk, Except.toBool] at hps ⊢
      simp [← hps]

theorem parseLines_ok_eq (ls : List (List Tok)) (ms : List (Tok × Tok × Tok))
    (h : parseLines ls = Except.ok ms) : ms = fixedColumns ls := by
  induction ls generalizing ms with
  | nil =>
      simp only [parseLines] at h
      cases h
      rfl
  | cons line rest ih =>
      cases line with
      | nil =>
          simp only [parseLines] at h
          simpa [fixedColumns] using ih ms h
      | cons t ts =>
          simp only [parseLines, bind, Except.bind] at h
          cases hp : parseLine (t :: ts) with
          | error e => rw [hp] at h; cases h
          | ok tr =>
              rw [hp] at h
              cases h2 : parseLines rest with
              | error e2 => rw [h2] at h; cases h
              | ok ms2 =>
                  rw [h2] at h
                  simp only [pure, Except.pure] at h
                  cases h
                  have hrest := ih ms2 h2
                  -- unpack parseLine to identify tr with the three columns
                  simp only [parseLine, tokenAt, bind, Except.bind] at hp
                  cases hg0 : (t :: ts).get? 0 with
                  | none => rw [hg0] at hp; cases hp
                  | some a =>
                      rw [hg0] at hp
                      cases hg1 : (t :: ts).get? 1 with
                      | none => rw [hg1] at hp; cases hp
                      | some b =>
                          rw [hg1] at hp
                          cases hg4 : (t :: ts).get? 4 with
                          | none => rw [hg4] at hp; cases hp
                          | some c =>
                              rw [hg4] at hp
                              simp only [pure, Except.pure] at hp
                              cases hp
                              simp at hg0 hg1 hg4
                              subst hg0
                              simp [fixedColumns, List.filterMap_cons,
                                    hg1, hg4, hrest]

theorem parse_grid_xml_ok_mmi (doc : GridDoc) (g : ShakeGrid)
    (h : parse_grid_xml doc = Except.ok g) :
    ∃ ls, doc.grid_data = some ls ∧ parseLines ls = Except.ok g.mmi_data := by
  obtain ⟨ev?, sp?, fields, data?⟩ := doc
  simp only [parse_grid_xml, getElem0, getAttr, Tok.toFloat, TsTok.extract,
             bind, Except.bind] at h
  rcases ev? with _ | ⟨mag, lon, lat, desc, dep, tsa⟩
  · cases h
  rcases mag with _ | (_ | _) <;> try cases h
  rcases lon with _ | (_ | _) <;> try cases h
  rcases lat with _ | (_ | _) <;> try cases h
  rcases desc with _ | _ <;> try cases h
  rcases dep with _ | (_ | _) <;> try cases h
  rcases tsa with _ | (_ | _) <;> try cases h
  rcases sp? with _ | ⟨l1, l2, l3, l4, nr, nc⟩
  · cases h
  rcases l1 with _ | (_ | _) <;> try cases h
  rcases l2 with _ | (_ | _) <;> try cases h
  rcases l3 with _ | (_ | _) <;> try cases h
  rcases l4 with _ | (_ | _) <;> try cases h
  rcases nr with _ | (_ | _) <;> try cases h
  rcases nc with _ | (_ | _) <;> try cases h
  rcases data? with _ | ls
  · cases h
  refine ⟨ls, rfl, ?_⟩
  cases hp : parseLines ls with
  | error e => simp [hp] at h
  | ok ms =>
      simp only [hp, pure, Except.pure] at h
      cases h
      exact congrArg Except.ok rfl

theorem keyLe_iff {α κ : Type} [LinearOrder κ] (f : α → κ) (rest : α → α → Bool)
    (a b : α) :
    keyLe f rest a b = true ↔ f a < f b ∨ (f a = f b ∧ rest a b = true) := by
  unfold keyLe
  rcases lt_trichotomy (f a) (f b) with h | h | h
  · simp [h]
  · simp [h, lt_irrefl]
  · rw [if_neg (asymm h), if_pos h]
    simp [asymm h, ne_of_gt h]

theorem keyLe_trans {α κ : Type} [LinearOrder κ] (f : α → κ) (rest : α → α → Bool)
    (hrest : ∀ a b c, rest a b = true → rest b c = true → rest a c = true)
    (a b c : α) (hab : keyLe f rest a b = true) (hbc : keyLe f rest b c = true) :
    keyLe f rest a c = true := by
  rw [keyLe_iff] at hab hbc ⊢
  rcases hab with h1 | ⟨h1, r1⟩
  · rcases hbc with h2 | ⟨h2, r2⟩
    · exact Or.inl (lt_trans h1 h2)
    · exact Or.inl (h2 ▸ h1)
  · rcases hbc with h2 | ⟨h2, r2⟩
    · exact Or.inl (h1 ▸ h2)
    · exact Or.inr ⟨h1.trans h2, hrest a b c r1 r2⟩

theorem keyLe_total {α κ : Type} [LinearOrder κ] (f : α → κ) (rest : α → α → Bool)
    (hrest : ∀ a b, rest a b = true ∨ rest b a = true) (a b : α) :
    keyLe f rest a b = true ∨ keyLe f rest b a = true := by
  rw [keyLe_iff, keyLe_iff]
  rcases lt_trichotomy (f a) (f b) with h | h | h
  · exact Or.inl (Or.inl h)
  · rcases hrest a b with hr | hr
    · exact Or.inl (Or.inr ⟨h, hr⟩)
    · exact Or.inr (Or.inr ⟨h.symm, hr⟩)
  · exact Or.inr (Or.inl h)

theorem cityLe_trans (a b c : CityRow) (hab : cityLe a b = true)
    (hbc : cityLe b c = true) : cityLe a c = true := by
  unfold cityLe at *
  refine keyLe_trans _ _ ?_ a b c hab hbc
  intro a b c
  refine keyLe_trans _ _ ?_ a b c
  intro a b c
  refine keyLe_trans _ _ ?_ a b c
  intro a b c
  refine keyLe_trans _ _ ?_ a b c
  intro a b c
  refine keyLe_trans _ _ ?_ a b c
  intro a b c
  refine keyLe_trans _ _ ?_ a b c
  intro a b c
  refine keyLe_trans _ _ ?_ a b c
  intro a b c
  refine keyLe_trans _ _ ?_ a b c
  intro a b c h1 h2
  exact decide_eq_true (le_trans (of_decide_eq_true h1) (of_decide_eq_true h2))

theorem cityLe_total (a b : CityRow) : cityLe a b = true ∨ cityLe b a = true := by
  unfold cityLe
  refine keyLe_total _ _ ?_ a b
  intro a b
  refine keyLe_total _ _ ?_ a b
  intro a b
  refine keyLe_total _ _ ?_ a b
  intro a b
  refine keyLe_total _ _ ?_ a b
  intro a b
  refine keyLe_total _ _ ?_ a b
  intro a b
  refine keyLe_total _ _ ?_ a b
  intro a b
  refine keyLe_total _ _ ?_ a b
  intro a b
  refine keyLe_total _ _ ?_ a b
  intro a b
  rcases le_total a.id b.id with h | h
  · exact Or.inl (decide_eq_true h)
  · exact Or.inr (decide_eq_true h)

instance : IsTrans CityRow cityR := ⟨cityLe_trans⟩

instance : IsTotal CityRow cityR := ⟨cityLe_total⟩

theorem C3_theorem (cities : List CityRow) :
    List.Perm (citySortOrder cities) cities ∧
    List.Sorted cityR (citySortOrder cities) ∧
    ∀ row_count, (sorted_impacted_cities row_count cities).2 =
      (citySortOrder cities).head? :=
  ⟨List.perm_insertionSort cityR cities,
   List.sorted_insertionSort cityR cities,
   fun _ => rfl⟩

theorem C3_counterexample :
    (pyInt cityHigh.mmi = pyInt cityLow.mmi ∧ cityHigh.population = cityLow.population ∧
       cityHigh.name = cityLow.name ∧ cityLow.mmi < cityHigh.mmi) ∧
    (sorted_impacted_cities 5 [cityHigh, cityLow]).1 = [cityLow, cityHigh] ∧
    specCityLe cityLow cityHigh = false := by
  refine ⟨⟨by decide, by decide, by decide, by decide⟩, by decide, by decide⟩

theorem C4_theorem :
    (sorted_impacted_cities 3 rankFour).1.length = 4 ∧
    ¬ ((sorted_impacted_cities 3 rankFour).1.length ≤ 3) ∧
    (sorted_impacted_cities 3 rankFour).2 = (citySortOrder rankFour).head? := by
  refine ⟨by decide, by decide, rfl⟩

theorem C1_theorem (doc : GridDoc) : (parse_grid_xml doc).isOk = gridDocOk doc :=
  parse_grid_xml_isOk doc

theorem C1_counterexample :
    hasNonNumericSampleToken docNonNumericTok = true ∧
    (parse_grid_xml docNonNumericTok).isOk = true := by
  constructor
  · decide
  · decide

theorem C2_theorem :
    (∀ (doc : GridDoc) (fields2 : List GridField),
       parse_grid_xml { doc with grid_fields := fields2 } = parse_grid_xml doc) ∧
    (∀ (doc : GridDoc) (g : ShakeGrid), parse_grid_xml doc = Except.ok g →
       ∀ ls, doc.grid_data = some ls → g.mmi_data = fixedColumns ls) := by
  constructor
  · intro doc fields2
    rfl
  · intro doc g h ls hls
    obtain ⟨ls2, hls2, hok⟩ := parse_grid_xml_ok_mmi doc g h
    rw [hls] at hls2
    cases hls2
    exact parseLines_ok_eq ls g.mmi_data hok

theorem C2_witness :
    (parse_grid_xml { docShuffledSchema with grid_fields := [] } =
       parse_grid_xml docShuffledSchema) ∧
    (match parse_grid_xml docShuffledSchema with
      | Except.ok g => g.mmi_data = fixedColumns [[.num 1, .num 2, .num 3, .num 4, .num 5]]
      | Except.error _ => False) := by
  refine ⟨C2_theorem.1 docShuffledSchema [], ?_⟩
  cases hg : parse_grid_xml docShuffledSchema with
  | error e =>
      have hok := parse_grid_xml_isOk docShuffledSchema
      rw [hg] at hok
      rw [show gridDocOk docShuffledSchema = true from by decide] at hok
      simp [Except.isOk, Except.toBool] at hok
  | ok g => exact C2_theorem.2 docShuffledSchema g hg _ rfl

theorem C2_counterexample :
    (match parse_grid_xml docShuffledSchema with
      | Except.ok g => some g.mmi_data
      | Except.error _ => none) ≠ specSchemaExtract docShuffledSchema := by
  decide

theorem C5_theorem (orc : CityOracles) (raster : ℚ → ℚ → Option RasterValue)
    (epicenter : ℚ × ℚ) (f : RawCity) (hv : f.valid = true)
    (hc : strContains f.fcode "PPL" = true) (hp : ¬ (f.population < 1))
    (hr : raster f.x f.y = some RasterValue.noData) :
    buildCity orc raster epicenter f =
      Except.ok (some
        { id := f.id, name := f.name, population := f.population, mmi := 0,
          dist_to := (f.x - epicenter.1) * (f.x - epicenter.1) +
                     (f.y - epicenter.2) * (f.y - epicenter.2),
          dir_to := orc.azimuth (f.x, f.y) epicenter,
          dir_from := orc.azimuth epicenter (f.x, f.y),
          roman := "0", colour := orc.mmi_colour 0 }) ∧
    (∀ rect0 z, rect0.containsPoint f.x f.y = true →
       searchCities [f] rect0 z = ⟨rect0, [1], rect0, true⟩) := by
  constructor
  · have hroman : romanize (some (0 : ℚ)) = Except.ok (some "0") := rfl
    simp [buildCity, hv, hc, hp, hr, hroman]
  · intro rect0 z h
    simp [searchCities, attempts_limit, searchIterate, cityCountIn, h]

theorem C5_witness :
    buildCity cOrc noDataRaster (0, 0) cCity =
      Except.ok (some
        { id := cCity.id, name := cCity.name, population := cCity.population,
          mmi := 0,
          dist_to := (cCity.x - (0 : ℚ)) * (cCity.x - 0) + (cCity.y - 0) * (cCity.y - 0),
          dir_to := cOrc.azimuth (cCity.x, cCity.y) (0, 0),
          dir_from := cOrc.azimuth (0, 0) (cCity.x, cCity.y),
          roman := "0", colour := cOrc.mmi_colour 0 }) ∧
    searchCities [cCity] cRect (mkRat 5 4) = ⟨cRect, [1], cRect, true⟩ :=
  have h := C5_theorem cOrc noDataRaster (0, 0) cCity rfl (by decide) (by decide) rfl
  ⟨h.1, h.2 cRect (mkRat 5 4) (by decide)⟩

theorem C5_counterexample :
    noDataRaster cCity.x cCity.y = some RasterValue.noData ∧
    local_city_features cOrc noDataRaster (0, 0) [cCity] cRect (mkRat 5 4) =
      Except.ok ([{ id := 57, name := "Tondano", population := 1000, mmi := 0,
                    dist_to := mkRat 1 2, dir_to := 0, dir_from := 0, roman := "0",
                    colour := "#ffffff" }],
                 [⟨1, cRect⟩], cRect) := by
  constructor
  · rfl
  · norm_num [local_city_features, searchCities, attempts_limit, searchIterate,
              cityCountIn, cOrc, noDataRaster, cCity, cRect, buildCities, buildCity,
              Rect.containsPoint, strContains, charsContain, charsLeadWith,
              romanize, pyIndex, pyInt, romanList, bind, Except.bind, pure,
              Except.pure, Rat.mkRat_eq_div]

theorem C6_theorem :
    local_city_features cOrc noDataRaster (0, 0) [] c6Rect (mkRat 5 4) =
      Except.ok ([], List.replicate 5 (SearchBox.mk 0 c6Final), c6Final) ∧
    c6Final ≠ c6Rect := by
  constructor
  · norm_num [local_city_features, searchCities, attempts_limit, searchIterate,
              cityCountIn, buildCities, Rect.containsPoint, Rect.scale, c6Rect,
              c6Final, bind, Except.bind, pure, Except.pure, Rat.mkRat_eq_div,
              List.replicate]
  · decide

theorem C7_theorem (hazard_layer exposure_layer : GeoLayer) :
    (clip_layers hazard_layer exposure_layer).1.cell_size =
        min hazard_layer.geoCellSize exposure_layer.geoCellSize ∧
    (clip_layers hazard_layer exposure_layer).2.cell_size =
        min hazard_layer.geoCellSize exposure_layer.geoCellSize ∧
    (clip_layers hazard_layer exposure_layer).1.extent = hazard_layer.geoExtent ∧
    (clip_layers hazard_layer exposure_layer).2.extent = hazard_layer.geoExtent := by
  refine ⟨?_, ?_, rfl, rfl⟩ <;>
    · by_cases h : hazard_layer.geoCellSize < exposure_layer.geoCellSize
      · simp [clip_layers, h, min_eq_left h.le]
      · simp [clip_layers, h, min_eq_right (not_lt.mp h)]

theorem C8_theorem (k : ImpactKeywords) :
    ((extract_impact_keywords k).isOk =
      (k.fatalites_per_mmi.isSome && k.exposed_per_mmi.isSome &&
       k.displaced_per_mmi.isSome && k.total_fatalities.isSome)) ∧
    (∀ v, extract_impact_keywords k = Except.ok v →
       k.fatalites_per_mmi = some v.1 ∧ k.exposed_per_mmi = some v.2.1 ∧
       k.displaced_per_mmi = some v.2.2.1 ∧ k.total_fatalities = some v.2.2.2) := by
  obtain ⟨f, a, d, t⟩ := k
  rcases f with _ | f <;> rcases a with _ | a <;> rcases d with _ | d <;>
    rcases t with _ | t <;>
    simp [extract_impact_keywords, getAttr, bind, Except.bind, pure, Except.pure,
          Except.isOk, Except.toBool]

theorem C8_witness :
    kFull.fatalites_per_mmi = some [(5, 10)] ∧
    kFull.exposed_per_mmi = some [(5, 100)] ∧
    kFull.displaced_per_mmi = some [(5, 20)] ∧
    kFull.total_fatalities = some 30 :=
  (C8_theorem kFull).2 ([(5, 10)], [(5, 100)], [(5, 20)], 30) rfl

theorem qml_ne_tif (alg : String) : tifName alg ≠ "mmi-" ++ alg ++ ".qml" := by
  intro h
  have hd := congrArg String.data h
  simp only [tifName, String.data_append] at hd
  have h2 := List.append_cancel_left hd
  exact absurd h2 (by decide)

theorem keywords_ne_tif (alg : String) :
    tifName alg ≠ "mmi-" ++ alg ++ ".keywords" := by
  intro h
  have hd := congrArg String.data h
  simp only [tifName, String.data_append] at hd
  have h2 := List.append_cancel_left hd
  exact absurd h2 (by decide)

theorem mmi_data_to_raster_compute (gen : Gen) (fs : FS) (force_flag : Bool)
    (algorithm : Option String)
    (h : ((fs (tifName (algorithm.getD "nearest"))).isSome && !force_flag) = false) :
    (mmi_data_to_raster gen fs force_flag algorithm).1
        (tifName (algorithm.getD "nearest")) = some gen.tif ∧
    (mmi_data_to_raster gen fs force_flag algorithm).2 =
      tifName (algorithm.getD "nearest") := by
  simp [mmi_data_to_raster, h, FS.insert, qml_ne_tif (algorithm.getD "nearest"),
        keywords_ne_tif (algorithm.getD "nearest")]

theorem C9_theorem (gen gen2 : Gen) (fs : FS) (force_flag : Bool)
    (algorithm : Option String) :
    ((fs (tifName (algorithm.getD "nearest"))).isSome = true →
       mmi_data_to_raster gen fs false algorithm =
         (fs, tifName (algorithm.getD "nearest"))) ∧
    (mmi_data_to_raster gen2 (mmi_data_to_raster gen fs force_flag algorithm).1
        false algorithm =
      ((mmi_data_to_raster gen fs force_flag algorithm).1,
       (mmi_data_to_raster gen fs force_flag algorithm).2)) ∧
    ((force_flag = true ∨ fs (tifName (algorithm.getD "nearest")) = none) →
       (mmi_data_to_raster gen fs force_flag algorithm).1
           (tifName (algorithm.getD "nearest")) = some gen.tif) := by
  have hhit : ∀ (g : Gen) (fs2 : FS),
      (fs2 (tifName (algorithm.getD "nearest"))).isSome = true →
      mmi_data_to_raster g fs2 false algorithm =
        (fs2, tifName (algorithm.getD "nearest")) := by
    intro g fs2 h2
    simp [mmi_data_to_raster, h2]
  refine ⟨hhit gen fs, ?_, ?_⟩
  · by_cases h : ((fs (tifName (algorithm.getD "nearest"))).isSome && !force_flag) = true
    · have heq : mmi_data_to_raster gen fs force_flag algorithm =
          (fs, tifName (algorithm.getD "nearest")) := by
        simp [mmi_data_to_raster, h]
      rw [heq]
      exact hhit gen2 fs (by simpa using h.symm ▸ (Bool.and_elim_left h))
    · have hc := mmi_data_to_raster_compute gen fs force_flag algorithm
        (by simpa using h)
      have h2 : ((mmi_data_to_raster gen fs force_flag algorithm).1
          (tifName (algorithm.getD "nearest"))).isSome = true := by
        rw [hc.1]; rfl
      rw [hhit gen2 _ h2, hc.2]
  · intro h
    have hcond : ((fs (tifName (algorithm.getD "nearest"))).isSome && !force_flag)
        = false := by
      rcases h with h | h <;> simp [h]
    exact (mmi_data_to_raster_compute gen fs force_flag algorithm hcond).1

theorem C9_witness :
    mmi_data_to_raster ⟨1, 2, 3, 4, 5, 6⟩ fsCached false (some "nearest") =
      (fsCached, tifName "nearest") ∧
    (mmi_data_to_raster ⟨1, 2, 3, 4, 5, 6⟩ (fun _ => none) true none).1
        (tifName "nearest") = some 4 :=
  ⟨(C9_theorem ⟨1, 2, 3, 4, 5, 6⟩ ⟨1, 2, 3, 4, 5, 6⟩ fsCached false
      (some "nearest")).1 (by simp [fsCached]),
   (C9_theorem ⟨1, 2, 3, 4, 5, 6⟩ ⟨1, 2, 3, 4, 5, 6⟩ (fun _ => none) true
      none).2.2 (Or.inl rfl)⟩

theorem C10_theorem (v : ℚ) :
    (0 ≤ pyInt v → pyInt v ≤ 12 →
       romanize (some v) = Except.ok (some (romanList.getD (pyInt v).toNat ""))) ∧
    (13 ≤ pyInt v → romanize (some v) = Except.error "IndexError") := by
  constructor
  · intro h0 h12
    simp only [romanize]
    generalize hi : pyInt v = i
    rw [hi] at h0 h12
    interval_cases i <;> rfl
  · intro h13
    have h1 : ¬ (0 ≤ pyInt v ∧ pyInt v < (romanList.length : Int)) := by
      rw [show ((romanList.length : Int)) = 13 from rfl]
      omega
    have h2 : ¬ (-(romanList.length : Int) ≤ pyInt v ∧ pyInt v < 0) := by omega
    simp only [romanize, pyIndex, if_neg h1, if_neg h2]

theorem C10_witness :
    (0 ≤ pyInt (mkRat 5 2) ∧ pyInt (mkRat 5 2) ≤ 12 ∧
       romanize (some (mkRat 5 2)) =
         Except.ok (some (romanList.getD (pyInt (mkRat 5 2)).toNat ""))) ∧
    (13 ≤ pyInt (14 : ℚ) ∧ romanize (some (14 : ℚ)) = Except.error "IndexError") :=
  ⟨⟨by decide, by decide, (C10_theorem (mkRat 5 2)).1 (by decide) (by decide)⟩,
   ⟨by decide, (C10_theorem 14).2 (by decide)⟩⟩
